import Mathlib

/-!
Verification of the synthetic privacy-risk dataset generator (`avi.py`).

The Python script is embedded shallowly:

* the global `random` stream seeded once at start is modelled by `RNG`, a
  position in an arbitrary infinite stream of naturals; each library call
  (`random.choice`, `random.randint`, `random.choices`) consumes one draw
  and is deterministic in the stream;
* `datetime` values are minutes since `START_DATE` (2025-06-01 00:00,
  a Sunday); `ts.hour` and `ts.strftime("%A")` become arithmetic on
  minutes;
* Python f-string formatting `str(n).zfill(w)` is `zfill (Nat.repr n) w`,
  with `Nat.repr` the very printing function of Lean core (digit-exact
  match with CPython's `str` on naturals);
* a pandas `DataFrame` of rows is a `List Row`; `df.loc[len(df)] = row`
  is appending; `df.at[idx, col] = v` is `List.set` of an updated record;
  `df.head(n)` is `List.take n`.

Definitions follow the source order of `avi.py`.  A development of
decimal-string facts (`reprDigits`, `valChars`, `zfill`) comes first: it
is needed to prove that the generated identifiers `U001..U300` and
`A00001..` are pairwise distinct and ordered.
-/

/-- Python `str.zfill`: pad a (digit) string with leading `'0'` up to
width `w`.  The source only applies it to decimal representations of
positive numbers, so the sign handling of CPython's `zfill` never
fires. -/
def zfill (s : String) (w : Nat) : String :=
  String.mk (List.replicate (w - s.data.length) '0' ++ s.data)

/-- Numeric value of a decimal digit character. -/
def charVal (c : Char) : Nat := c.toNat - 48

/-- The character is one of `'0'`..`'9'`. -/
def IsDigit10 (c : Char) : Prop := 48 ≤ c.toNat ∧ c.toNat ≤ 57

instance (c : Char) : Decidable (IsDigit10 c) := by
  unfold IsDigit10; infer_instance

/-- Value of a most-significant-first list of decimal digit characters. -/
def valChars (l : List Char) : Nat :=
  l.foldl (fun a c => a * 10 + charVal c) 0

/-- Most-significant-first decimal digits of `n`, as characters; the
reference implementation that `Nat.repr` (Lean's and CPython's decimal
printer) is proved to agree with. -/
def reprDigits (n : Nat) : List Char :=
  if n < 10 then [Nat.digitChar n]
  else reprDigits (n / 10) ++ [Nat.digitChar (n % 10)]
decreasing_by exact Nat.div_lt_self (by omega) (by omega)

theorem reprDigits_of_lt {n : Nat} (h : n < 10) :
    reprDigits n = [Nat.digitChar n] := by
  rw [reprDigits]; simp [h]

theorem reprDigits_of_ge {n : Nat} (h : ¬ n < 10) :
    reprDigits n = reprDigits (n / 10) ++ [Nat.digitChar (n % 10)] := by
  conv_lhs => rw [reprDigits]
  simp [h]

theorem toDigitsCore_eq_reprDigits :
    ∀ (f n : Nat) (ds : List Char), n < f →
      Nat.toDigitsCore 10 f n ds = reprDigits n ++ ds := by
  intro f
  induction f with
  | zero => intro n ds h; omega
  | succ f ih =>
    intro n ds h
    by_cases h10 : n / 10 = 0
    · have hn : n < 10 := by omega
      simp [Nat.toDigitsCore, h10, reprDigits_of_lt hn,
        Nat.mod_eq_of_lt hn]
    · have hn : ¬ n < 10 := by
        intro hlt; exact h10 (Nat.div_eq_of_lt hlt)
      have hdf : n / 10 < f := by
        have h1 : n / 10 < n := Nat.div_lt_self (by omega) (by omega)
        omega
      simp only [Nat.toDigitsCore, h10, if_false]
      rw [ih (n / 10) _ hdf, reprDigits_of_ge hn, List.append_assoc]
      rfl

/-- The characters of `Nat.repr n` are exactly `reprDigits n`. -/
theorem repr_data (n : Nat) : (Nat.repr n).data = reprDigits n := by
  show (Nat.toDigitsCore 10 (n + 1) n []).asString.data = reprDigits n
  rw [toDigitsCore_eq_reprDigits (n + 1) n [] (Nat.lt_succ_self n)]
  simp [List.asString]

theorem charVal_digitChar {d : Nat} (h : d < 10) :
    charVal (Nat.digitChar d) = d := by
  interval_cases d <;> decide

theorem isDigit10_digitChar {d : Nat} (h : d < 10) :
    IsDigit10 (Nat.digitChar d) := by
  interval_cases d <;> decide

theorem valChars_append (l₁ l₂ : List Char) :
    valChars (l₁ ++ l₂) =
      l₂.foldl (fun a c => a * 10 + charVal c) (valChars l₁) := by
  simp [valChars, List.foldl_append]

/-- Evaluating the digit fold from accumulator `a`. -/
theorem foldl_digits_acc (l : List Char) :
    ∀ a : Nat,
      l.foldl (fun a c => a * 10 + charVal c) a =
        a * 10 ^ l.length + valChars l := by
  induction l with
  | nil => intro a; simp [valChars]
  | cons c l ih =>
    intro a
    have h1 := ih (a * 10 + charVal c)
    have h2 := ih (0 * 10 + charVal c)
    simp only [List.foldl_cons, valChars] at *
    rw [h1, h2, List.length_cons, pow_succ]
    ring

theorem valChars_cons (c : Char) (l : List Char) :
    valChars (c :: l) = charVal c * 10 ^ l.length + valChars l := by
  simp only [valChars, List.foldl_cons]
  have := foldl_digits_acc l (0 * 10 + charVal c)
  simpa using this

theorem valChars_reprDigits (n : Nat) : valChars (reprDigits n) = n := by
  induction n using Nat.strong_induction_on with
  | _ n ih =>
    by_cases h : n < 10
    · rw [reprDigits_of_lt h]
      simp [valChars, charVal_digitChar h]
    · rw [reprDigits_of_ge h, valChars_append]
      simp only [List.foldl_cons, List.foldl_nil]
      rw [ih (n / 10) (Nat.div_lt_self (by omega) (by omega))]
      rw [charVal_digitChar (Nat.mod_lt n (by omega))]
      omega

theorem reprDigits_digits (n : Nat) : ∀ c ∈ reprDigits n, IsDigit10 c := by
  induction n using Nat.strong_induction_on with
  | _ n ih =>
    by_cases h : n < 10
    · rw [reprDigits_of_lt h]
      intro c hc
      simp only [List.mem_singleton] at hc
      exact hc ▸ isDigit10_digitChar h
    · rw [reprDigits_of_ge h]
      intro c hc
      rcases List.mem_append.1 hc with h1 | h2
      · exact ih (n / 10) (Nat.div_lt_self (by omega) (by omega)) c h1
      · simp only [List.mem_singleton] at h2
        exact h2 ▸ isDigit10_digitChar (Nat.mod_lt n (by omega))

theorem valChars_replicate_zero (k : Nat) (l : List Char) :
    valChars (List.replicate k '0' ++ l) = valChars l := by
  induction k with
  | zero => simp
  | succ k ih =>
    rw [List.replicate_succ, List.cons_append, valChars_cons]
    simpa [charVal] using ih

theorem valChars_lt_pow (l : List Char) (h : ∀ c ∈ l, IsDigit10 c) :
    valChars l < 10 ^ l.length := by
  induction l with
  | nil => simp [valChars]
  | cons c l ih =>
    rw [valChars_cons]
    have hc : charVal c ≤ 9 := by
      have := h c (List.mem_cons_self c l)
      simp only [IsDigit10, charVal] at *
      omega
    have hl : valChars l < 10 ^ l.length :=
      ih (fun d hd => h d (List.mem_cons_of_mem c hd))
    have : charVal c * 10 ^ l.length ≤ 9 * 10 ^ l.length :=
      Nat.mul_le_mul_right _ hc
    calc charVal c * 10 ^ l.length + valChars l
        < charVal c * 10 ^ l.length + 10 ^ l.length := by omega
      _ ≤ 9 * 10 ^ l.length + 10 ^ l.length := by omega
      _ = 10 ^ (c :: l).length := by rw [List.length_cons, pow_succ]; ring

theorem zfill_data (s : String) (w : Nat) :
    (zfill s w).data = List.replicate (w - s.data.length) '0' ++ s.data :=
  rfl

theorem zfill_repr_length {n w : Nat} (hw : 0 < w) (h : n < 10 ^ w) :
    (zfill (Nat.repr n) w).data.length = w := by
  have hlen : (Nat.repr n).length ≤ w := Nat.repr_length n w hw h
  have hdata : (Nat.repr n).data.length ≤ w := hlen
  simp [zfill_data, List.length_append, List.length_replicate]
  omega

theorem zfill_repr_val (n w : Nat) :
    valChars (zfill (Nat.repr n) w).data = n := by
  rw [zfill_data, repr_data, valChars_replicate_zero, valChars_reprDigits]

theorem zfill_repr_digits (n w : Nat) :
    ∀ c ∈ (zfill (Nat.repr n) w).data, IsDigit10 c := by
  rw [zfill_data, repr_data]
  intro c hc
  rcases List.mem_append.1 hc with h1 | h2
  · rcases List.mem_replicate.1 h1 with ⟨-, rfl⟩
    decide
  · exact reprDigits_digits n c h2

/-- Two decimal-digit strings of the same length compare lexicographically
exactly as their numeric values. -/
theorem digit_list_lt_of_val_lt :
    ∀ (l₁ l₂ : List Char), l₁.length = l₂.length →
      (∀ c ∈ l₁, IsDigit10 c) → (∀ c ∈ l₂, IsDigit10 c) →
      valChars l₁ < valChars l₂ → l₁ < l₂ := by
  intro l₁
  induction l₁ with
  | nil =>
    intro l₂ hlen _ _ hv
    cases l₂ with
    | nil => simp [valChars] at hv
    | cons b bs => simp at hlen
  | cons c l₁ ih =>
    intro l₂ hlen hd₁ hd₂ hv
    cases l₂ with
    | nil => simp at hlen
    | cons d l₂ =>
      simp only [List.length_cons, Nat.succ.injEq] at hlen
      have hc := hd₁ c (List.mem_cons_self c l₁)
      have hdd := hd₂ d (List.mem_cons_self d l₂)
      rcases Nat.lt_trichotomy (charVal c) (charVal d) with hlt | heq | hgt
      · have : c < d := by
          show c.val < d.val
          have : c.toNat < d.toNat := by
            simp only [IsDigit10, charVal] at *
            omega
          exact this
        exact List.Lex.rel this
      · have hcd : c = d := by
          have : c.toNat = d.toNat := by
            simp only [IsDigit10, charVal] at *
            omega
          exact Char.ext (UInt32.ext this)
        subst hcd
        rw [valChars_cons, valChars_cons, hlen] at hv
        have hv' : valChars l₁ < valChars l₂ := by omega
        exact List.Lex.cons
          (ih l₂ hlen (fun x hx => hd₁ x (List.mem_cons_of_mem c hx))
            (fun x hx => hd₂ x (List.mem_cons_of_mem c hx)) hv')
      · exfalso
        rw [valChars_cons, valChars_cons, hlen] at hv
        have h2 : valChars l₂ < 10 ^ l₂.length :=
          valChars_lt_pow l₂ (fun x hx => hd₂ x (List.mem_cons_of_mem d hx))
        have : charVal d * 10 ^ l₂.length + valChars l₂
            < (charVal d + 1) * 10 ^ l₂.length := by
          rw [Nat.add_mul, one_mul]
          omega
        have hle : (charVal d + 1) * 10 ^ l₂.length
            ≤ charVal c * 10 ^ l₂.length := Nat.mul_le_mul_right _ (by omega)
        omega

/-- Zero-padded decimal representations of distinct bounded numbers are
strictly ordered as strings. -/
theorem zfill_repr_lt {a b w : Nat} (hab : a < b) (hb : b < 10 ^ w) :
    (zfill (Nat.repr a) w).data < (zfill (Nat.repr b) w).data := by
  have hw : 0 < w := by
    rcases Nat.eq_zero_or_pos w with h | h
    · subst h; omega
    · exact h
  apply digit_list_lt_of_val_lt
  · rw [zfill_repr_length hw (by omega), zfill_repr_length hw hb]
  · exact zfill_repr_digits a w
  · exact zfill_repr_digits b w
  · rw [zfill_repr_val, zfill_repr_val]; exact hab

/-- Zero-padded decimal representation is injective on bounded numbers. -/
theorem zfill_repr_inj {a b w : Nat}
    (h : zfill (Nat.repr a) w = zfill (Nat.repr b) w) : a = b := by
  have := congrArg (fun s => valChars s.data) h
  simpa [zfill_repr_val] using this

/-!
The random stream.  `random.seed(SEED)` fixes the module-level Mersenne
Twister; every later library call consumes it in program order.  The
model is an infinite stream of naturals plus a cursor: each call reads
one draw and advances the cursor, so a run is a function of the stream.
Claims about all runs quantify over the stream; the stream produced by
`random.seed` itself is a library detail outside the repository and is
modelled by `seedStream`.
-/

structure RNG where
  stream : Nat → Nat
  pos : Nat

def RNG.next (g : RNG) : Nat × RNG :=
  (g.stream g.pos, ⟨g.stream, g.pos + 1⟩)

/-- Model of `random.randint(a, b)`: one draw, uniform over the
inclusive range `[a, b]`; the draw picks the offset.  CPython raises on
an empty range, a case no run in the source reaches. -/
def randint (a b : Nat) (g : RNG) : Nat × RNG :=
  (a + (RNG.next g).1 % (b - a + 1), (RNG.next g).2)

/-- Model of `random.choice(l)`: one draw selecting an index of `l`.
CPython raises on an empty sequence; the model returns `""` there, a
case no theorem relies on. -/
def choice (l : List String) (g : RNG) : String × RNG :=
  (l.getD ((RNG.next g).1 % l.length) "", (RNG.next g).2)

/-- Model of `random.choices(l, weights=w, k=1)[0]`: one draw selecting
an element of `l`.  The weight vectors in the source (`[0.75,0.20,0.05]`
etc.) are all positive, so the support is the whole population; which
element comes out depends only on the stream, which is what the model
keeps.  The weights shape the distribution only, and no claim concerns
the distribution. -/
def choices1 (l : List String) (g : RNG) : String × RNG :=
  (l.getD ((RNG.next g).1 % l.length) "", (RNG.next g).2)

/-! Section 1 of `avi.py`: configuration. -/

def SEED : Nat := 42

def NUM_ROWS : Nat := 5000

/-- `START_DATE = datetime(2025, 6, 1)`: timestamps are minutes from
this instant (a midnight; 2025-06-01 is a Sunday). -/
def START_MIN : Nat := 0

def DAYS_SPAN : Nat := 30

/-- `ts.hour` for a timestamp in minutes from a midnight. -/
def hourOf (t : Nat) : Nat := t / 60 % 24

def weekdayName : Nat → String
  | 0 => "Sunday"
  | 1 => "Monday"
  | 2 => "Tuesday"
  | 3 => "Wednesday"
  | 4 => "Thursday"
  | 5 => "Friday"
  | 6 => "Saturday"
  | _ => ""

/-- `ts.strftime("%A")`: day 0 (2025-06-01) is a Sunday. -/
def dayNameOf (t : Nat) : String := weekdayName (t / 1440 % 7)

/-- The per-role staff counts of the `roles` literal, with the count as
an `Int` so that an (invalid) negative configuration is expressible —
§7 of the spec discusses exactly that case.  Python list repetition
with a non-positive count yields the empty list, hence `Int.toNat`. -/
def role_counts : List (String × Int) :=
  [("Doctor", 86), ("Nurse", 166), ("Admin", 15),
   ("Receptionist", 21), ("Pharmacist", 12)]

def buildRoles (counts : List (String × Int)) : List String :=
  counts.foldr (fun rc acc => List.replicate rc.2.toNat rc.1 ++ acc) []

def roles : List String := buildRoles role_counts

theorem roles_def :
    roles =
      List.replicate 86 "Doctor" ++ List.replicate 166 "Nurse" ++
      List.replicate 15 "Admin" ++ List.replicate 21 "Receptionist" ++
      List.replicate 12 "Pharmacist" := by
  rw [List.append_assoc, List.append_assoc, List.append_assoc]
  rw [show roles = List.replicate 86 "Doctor" ++ (List.replicate 166 "Nurse" ++
    (List.replicate 15 "Admin" ++ (List.replicate 21 "Receptionist" ++
      (List.replicate 12 "Pharmacist" ++ [])))) from rfl]
  simp only [List.append_nil]

/-- `users = [f"U{str(i+1).zfill(3)}" for i in range(len(roles))]`,
parameterized by the role list so that invalid configurations are
expressible. -/
def usersOf (rolesL : List String) : List String :=
  (List.range rolesL.length).map (fun i => "U" ++ zfill (Nat.repr (i + 1)) 3)

def users : List String := usersOf roles

/-- `user_role_map = dict(zip(users, roles))`. -/
def user_role_mapOf (rolesL : List String) : List (String × String) :=
  (usersOf rolesL).zip rolesL

def user_role_map : List (String × String) := user_role_mapOf roles

/-- Dict indexing `user_role_map[u]`.  All call sites in the source use
keys present in the dict; the `""` default stands for CPython's
`KeyError`, a case no theorem relies on. -/
def roleOfUserOf (rolesL : List String) (u : String) : String :=
  ((user_role_mapOf rolesL).lookup u).getD ""

def roleOfUser (u : String) : String := roleOfUserOf roles u

def role_department : List (String × String) :=
  [("Doctor", "Clinical"), ("Nurse", "Clinical"), ("Pharmacist", "Pharmacy"),
   ("Admin", "Admin"), ("Receptionist", "Admin")]

/-- Dict indexing `role_department[r]` (`""` stands for `KeyError`). -/
def deptOf (r : String) : String := (role_department.lookup r).getD ""

def role_risk_weight : List (String × Nat) :=
  [("Doctor", 2), ("Nurse", 3), ("Pharmacist", 3),
   ("Admin", 5), ("Receptionist", 4)]

/-- Dict indexing `role_risk_weight[r]` (`0` stands for `KeyError`). -/
def weightOf (r : String) : Nat := (role_risk_weight.lookup r).getD 0

def actions : List String := ["View", "Edit", "Export"]

def sensitivities : List String := ["Normal", "High"]

def locations : List String := ["Onsite", "Remote"]

/-! Section 2 of `avi.py`: helper functions. -/

def random_timestamp (start : Nat) (days_span : Nat) (g : RNG) : Nat × RNG :=
  (start + (randint 0 (days_span * 24 * 60 - 1) g).1,
   (randint 0 (days_span * 24 * 60 - 1) g).2)

def is_weekend (day_name : String) : Nat :=
  if day_name = "Saturday" ∨ day_name = "Sunday" then 1 else 0

def is_off_hours (hour : Nat) : Nat :=
  if hour < 8 ∨ hour > 18 then 1 else 0

def compute_risk_score (role action sensitivity : String)
    (off_hours_flag : Nat) : Nat :=
  let score := weightOf role * 10
  let score := if sensitivity = "High" then score + 30 else score
  let score := if action = "Export" then score + 20 else score
  let score := if off_hours_flag = 1 then score + 20 else score
  score

/-! Section 3 of `avi.py`: the generation loop. -/

structure Row where
  AccessID : String
  UserID : String
  UserRole : String
  Department : String
  Timestamp : Nat
  DayOfWeek : String
  HourOfDay : Nat
  PatientID : String
  ActionType : String
  DataSensitivity : String
  AccessLocation : String
  AccessCountPerDay : Nat
  IsOffHours : Nat
  IsWeekend : Nat
  RoleRiskWeight : Nat
  AccessRiskScore : Nat
deriving DecidableEq, Repr, Inhabited

/-- One iteration of the bulk loop, for index `i`; random draws are
consumed in source order: user, timestamp, action, sensitivity,
location, daily volume, patient id. -/
def sampleRowOf (rolesL : List String) (i : Nat) (g0 : RNG) : Row × RNG :=
  let usersL := usersOf rolesL
  let user := (choice usersL g0).1
  let g1 := (choice usersL g0).2
  let role := roleOfUserOf rolesL user
  let dept := deptOf role
  let ts := (random_timestamp START_MIN DAYS_SPAN g1).1
  let g2 := (random_timestamp START_MIN DAYS_SPAN g1).2
  let hour := hourOf ts
  let day_name := dayNameOf ts
  let weekend_flag := is_weekend day_name
  let off_hours_flag := is_off_hours hour
  let action := (choices1 actions g2).1
  let g3 := (choices1 actions g2).2
  let sensitivity := (choices1 sensitivities g3).1
  let g4 := (choices1 sensitivities g3).2
  let location := (choices1 locations g4).1
  let g5 := (choices1 locations g4).2
  let acPair :=
    if role = "Doctor" then randint 40 90 g5
    else if role = "Nurse" then randint 25 60 g5
    else if role = "Pharmacist" then randint 10 30 g5
    else if role = "Admin" then randint 5 20 g5
    else randint 5 15 g5
  let access_count_per_day := acPair.1
  let g6 := acPair.2
  let risk_score := compute_risk_score role action sensitivity off_hours_flag
  let pat := (randint 100 999 g6).1
  let g7 := (randint 100 999 g6).2
  ({ AccessID := "A" ++ zfill (Nat.repr (i + 1)) 5
     UserID := user
     UserRole := role
     Department := dept
     Timestamp := ts
     DayOfWeek := day_name
     HourOfDay := hour
     PatientID := "P" ++ Nat.repr pat
     ActionType := action
     DataSensitivity := sensitivity
     AccessLocation := location
     AccessCountPerDay := access_count_per_day
     IsOffHours := off_hours_flag
     IsWeekend := weekend_flag
     RoleRiskWeight := weightOf role
     AccessRiskScore := risk_score }, g7)

/-- `for i in range(...): rows.append(...)`, from loop index `i`,
running `k` more iterations. -/
def genRowsOf (rolesL : List String) : Nat → Nat → RNG → List Row × RNG
  | _, 0, g => ([], g)
  | i, k + 1, g =>
      let rg := sampleRowOf rolesL i g
      let rest := genRowsOf rolesL (i + 1) k rg.2
      (rg.1 :: rest.1, rest.2)

def genRows (n : Nat) (g : RNG) : List Row × RNG := genRowsOf roles 0 n g

/-! Section 4 of `avi.py`: the optional scenario injectors.  A pandas
append `df_.loc[len(df_)] = row` is `df ++ [row]`; the in-place cell
write `df_.at[idx, col] = v` of scenario B is `List.set` with one field
updated. -/

/-- The `while base.strftime("%A") != target: base += timedelta(days=1)`
search, counted in days from `START_DATE`.  Every weekday name occurs
within 7 days, so the source loop terminates within the given fuel; the
fuel-exhausted value is never reached for the names the source uses. -/
def findDayFrom (target : String) : Nat → Nat → Nat
  | 0, d => d
  | fuel + 1, d =>
      if dayNameOf (d * 1440) = target then d
      else findDayFrom target fuel (d + 1)

def admin_users : List String :=
  users.filter (fun u => roleOfUser u == "Admin")

/-- Scenario A: Admin at 03:00 on the first Tuesday in the window. -/
def inject_scenario_a (df : List Row) (g0 : RNG) : List Row × RNG :=
  let u := (choice admin_users g0).1
  let g1 := (choice admin_users g0).2
  let base := findDayFrom "Tuesday" 7 0
  let ts := base * 1440 + 3 * 60
  let pat := (randint 100 999 g1).1
  let g2 := (randint 100 999 g1).2
  (df ++ [{ AccessID := "A" ++ zfill (Nat.repr (df.length + 1)) 5
            UserID := u
            UserRole := "Admin"
            Department := "Admin"
            Timestamp := ts
            DayOfWeek := "Tuesday"
            HourOfDay := 3
            PatientID := "P" ++ Nat.repr pat
            ActionType := "View"
            DataSensitivity := "Normal"
            AccessLocation := "Remote"
            AccessCountPerDay := 10
            IsOffHours := 1
            IsWeekend := 0
            RoleRiskWeight := weightOf "Admin"
            AccessRiskScore := compute_risk_score "Admin" "View" "Normal" 1 }],
   g2)

def rec_users : List String :=
  users.filter (fun u => roleOfUser u == "Receptionist")

/-- Model of `df[df["UserID"] == u].sample(1, random_state=SEED)`: a
deterministic selection of one position among the matching row indices.
The model takes the first candidate; pandas picks a pseudorandom one,
but every theorem below either holds for any choice of candidate or
instantiates a frame in which the candidate set is a singleton, where
the selection is forced. -/
def sampleOne (l : List Nat) : Nat := l.headD 0

/-- Scenario B: set one existing receptionist row's `AccessCountPerDay`
to 500 (an in-place cell write, not an append). -/
def inject_scenario_b (df : List Row) (g0 : RNG) : List Row × RNG :=
  let u := (choice rec_users g0).1
  let g1 := (choice rec_users g0).2
  let candidates :=
    (List.range df.length).filter (fun k => (df.getD k default).UserID == u)
  let idx := sampleOne candidates
  (df.set idx { df.getD idx default with AccessCountPerDay := 500 }, g1)

def non_clin : List String :=
  users.filter (fun u => roleOfUser u == "Admin" || roleOfUser u == "Receptionist")

/-- One iteration of scenario C's loop: the appended row for actor `u`
when the table currently has `len` rows. -/
def scenarioCRow (u : String) (len : Nat) (g0 : RNG) : Row × RNG :=
  let ts := (random_timestamp START_MIN DAYS_SPAN g0).1
  let g1 := (random_timestamp START_MIN DAYS_SPAN g0).2
  let hour := hourOf ts
  let day_name := dayNameOf ts
  let off_hours_flag := is_off_hours hour
  let weekend_flag := is_weekend day_name
  let action := (choices1 actions g1).1
  let g2 := (choices1 actions g1).2
  let pat := (randint 100 999 g2).1
  let g3 := (randint 100 999 g2).2
  let ac := (randint 5 20 g3).1
  let g4 := (randint 5 20 g3).2
  ({ AccessID := "A" ++ zfill (Nat.repr (len + 1)) 5
     UserID := u
     UserRole := roleOfUser u
     Department := "Admin"
     Timestamp := ts
     DayOfWeek := day_name
     HourOfDay := hour
     PatientID := "P" ++ Nat.repr pat
     ActionType := action
     DataSensitivity := "High"
     AccessLocation := "Remote"
     AccessCountPerDay := ac
     IsOffHours := off_hours_flag
     IsWeekend := weekend_flag
     RoleRiskWeight := weightOf (roleOfUser u)
     AccessRiskScore := compute_risk_score (roleOfUser u) action "High" off_hours_flag },
   g4)

def scenarioCLoop (u : String) : Nat → List Row → RNG → List Row × RNG
  | 0, df, g => (df, g)
  | k + 1, df, g =>
      let rg := scenarioCRow u df.length g
      scenarioCLoop u k (df ++ [rg.1]) rg.2

/-- Scenario C: a non-clinical actor with `n` high-sensitivity rows. -/
def inject_scenario_c (df : List Row) (g0 : RNG) (n : Nat := 30) :
    List Row × RNG :=
  let u := (choice non_clin g0).1
  let g1 := (choice non_clin g0).2
  scenarioCLoop u n df g1

/-- Scenario D: Sunday-afternoon high-sensitivity export.  The source
computes this row's `AccessID` from the module-level `df` (`len(df)+1`)
while appending to the parameter `df_`; `dfGlobal` renders that read.
At every call site the two frames are the same object. -/
def inject_scenario_d (dfGlobal df : List Row) (g0 : RNG) : List Row × RNG :=
  let u := (choice users g0).1
  let g1 := (choice users g0).2
  let base := findDayFrom "Sunday" 7 0
  let ts := base * 1440 + 15 * 60
  let role := roleOfUser u
  let pat := (randint 100 999 g1).1
  let g2 := (randint 100 999 g1).2
  (df ++ [{ AccessID := "A" ++ zfill (Nat.repr (dfGlobal.length + 1)) 5
            UserID := u
            UserRole := role
            Department := deptOf role
            Timestamp := ts
            DayOfWeek := "Sunday"
            HourOfDay := 15
            PatientID := "P" ++ Nat.repr pat
            ActionType := "Export"
            DataSensitivity := "High"
            AccessLocation := "Remote"
            AccessCountPerDay := 20
            IsOffHours := 0
            IsWeekend := 1
            RoleRiskWeight := weightOf role
            AccessRiskScore := compute_risk_score role "Export" "High" 0 }],
   g2)

def doc_users : List String :=
  users.filter (fun u => roleOfUser u == "Doctor")

/-- Scenario E: an ordinary in-hours doctor view at 10:00 on
`START_DATE`.  As in scenario D, the `AccessID` reads the module-level
frame. -/
def inject_scenario_e (dfGlobal df : List Row) (g0 : RNG) : List Row × RNG :=
  let u := (choice doc_users g0).1
  let g1 := (choice doc_users g0).2
  let ts := START_MIN + 10 * 60
  let pat := (randint 100 999 g1).1
  let g2 := (randint 100 999 g1).2
  (df ++ [{ AccessID := "A" ++ zfill (Nat.repr (dfGlobal.length + 1)) 5
            UserID := u
            UserRole := "Doctor"
            Department := "Clinical"
            Timestamp := ts
            DayOfWeek := dayNameOf ts
            HourOfDay := 10
            PatientID := "P" ++ Nat.repr pat
            ActionType := "View"
            DataSensitivity := "Normal"
            AccessLocation := "Onsite"
            AccessCountPerDay := 50
            IsOffHours := 0
            IsWeekend := is_weekend (dayNameOf ts)
            RoleRiskWeight := weightOf "Doctor"
            AccessRiskScore := compute_risk_score "Doctor" "View" "Normal" 0 }],
   g2)

/-- Which of the optional blocks A–E a run enables ("all, some, or none
may be enabled per run"). -/
inductive Scenario
  | A
  | B
  | C
  | D
  | E
deriving DecidableEq, Repr

def applyScenario (df : List Row) (g : RNG) : Scenario → List Row × RNG
  | Scenario.A => inject_scenario_a df g
  | Scenario.B => inject_scenario_b df g
  | Scenario.C => inject_scenario_c df g
  | Scenario.D => inject_scenario_d df df g
  | Scenario.E => inject_scenario_e df df g

def runScenarios : List Scenario → List Row → RNG → List Row × RNG
  | [], df, g => (df, g)
  | s :: rest, df, g =>
      let r := applyScenario df g s
      runScenarios rest r.1 r.2

/-- The whole run on the fixed roster: bulk generation, the enabled
scenario blocks in order, then `df = df.head(NUM_ROWS)` (line 269) and
`df.to_csv(...)`: the rows serialized are exactly the rows of this
list, in order. -/
def pipeline (numRows : Nat) (enabled : List Scenario) (g : RNG) : List Row :=
  let bulk := genRows numRows g
  let final := runScenarios enabled bulk.1 bulk.2
  final.1.take numRows

/-- The run on an arbitrary (possibly invalid) role-count
configuration, scenario blocks disabled, ending with the same
`head`/`to_csv` step. -/
def pipelineOf (rolesL : List String) (numRows : Nat) (g : RNG) : List Row :=
  ((genRowsOf rolesL 0 numRows g).1).take numRows

/-- Modelled from the spec: the pseudo-random stream that
`random.seed(seed)` fixes (§5, "acquire a seeded pseudo-random source
once at start").  The Mersenne Twister itself is library code outside
the repository; all that the claims use is that the stream is a
function of the seed, so any concrete representative serves. -/
def seedStream (seed : Nat) : Nat → Nat :=
  fun k => (seed + k + 1) * 48271 % 2147483647

def mkRNG (seed : Nat) : RNG := ⟨seedStream seed, 0⟩

/-! Helper lemmas about the embedded operations. -/

theorem compute_risk_score_eq (role action sensitivity : String) (f : Nat) :
    compute_risk_score role action sensitivity f =
      weightOf role * 10 + (if sensitivity = "High" then 30 else 0) +
      (if action = "Export" then 20 else 0) + (if f = 1 then 20 else 0) := by
  unfold compute_risk_score
  by_cases hs : sensitivity = "High" <;> by_cases ha : action = "Export" <;>
    by_cases hf : f = 1 <;> simp [hs, ha, hf]

theorem is_off_hours_iff (h : Nat) : is_off_hours h = 1 ↔ (h < 8 ∨ 18 < h) := by
  unfold is_off_hours
  split <;> rename_i hcond
  · simpa using hcond
  · simpa using hcond

theorem choice_mem {l : List String} (g : RNG) (h : l ≠ []) :
    (choice l g).1 ∈ l := by
  unfold choice
  have hlen : 0 < l.length := List.length_pos.2 h
  have hlt : (RNG.next g).1 % l.length < l.length := Nat.mod_lt _ hlen
  rw [List.getD_eq_getElem l "" hlt]
  exact List.getElem_mem hlt

set_option maxRecDepth 4000 in
theorem mem_users_253 : "U253" ∈ users := by decide

set_option maxRecDepth 4000 in
theorem mem_users_268 : "U268" ∈ users := by decide

set_option maxRecDepth 4000 in
theorem mem_users_001 : "U001" ∈ users := by decide

set_option maxRecDepth 4000 in
theorem roleOfUser_253 : roleOfUser "U253" = "Admin" := by decide

set_option maxRecDepth 4000 in
theorem roleOfUser_268 : roleOfUser "U268" = "Receptionist" := by decide

set_option maxRecDepth 4000 in
theorem roleOfUser_001 : roleOfUser "U001" = "Doctor" := by decide

theorem admin_users_ne_nil : admin_users ≠ [] :=
  List.ne_nil_of_mem
    (List.mem_filter.2 ⟨mem_users_253, by simp [roleOfUser_253]⟩)

theorem rec_users_ne_nil : rec_users ≠ [] :=
  List.ne_nil_of_mem
    (List.mem_filter.2 ⟨mem_users_268, by simp [roleOfUser_268]⟩)

theorem non_clin_ne_nil : non_clin ≠ [] :=
  List.ne_nil_of_mem
    (List.mem_filter.2 ⟨mem_users_253, by simp [roleOfUser_253]⟩)

theorem doc_users_ne_nil : doc_users ≠ [] :=
  List.ne_nil_of_mem
    (List.mem_filter.2 ⟨mem_users_001, by simp [roleOfUser_001]⟩)

theorem users_ne_nil : users ≠ [] := List.ne_nil_of_mem mem_users_001

theorem mem_admin_users_role {u : String} (h : u ∈ admin_users) :
    roleOfUser u = "Admin" := by
  have := (List.mem_filter.1 h).2
  simpa using this

theorem mem_doc_users_role {u : String} (h : u ∈ doc_users) :
    roleOfUser u = "Doctor" := by
  have := (List.mem_filter.1 h).2
  simpa using this

theorem mem_non_clin_role {u : String} (h : u ∈ non_clin) :
    roleOfUser u = "Admin" ∨ roleOfUser u = "Receptionist" := by
  have := (List.mem_filter.1 h).2
  simpa using this

/-- The row-level invariant that every row ever placed in the table
satisfies: the risk-score formula, the off-hours derivation, and
role/department consistency with the roster. -/
def RowOk (r : Row) : Prop :=
  r.AccessRiskScore =
      weightOf r.UserRole * 10 +
      (if r.DataSensitivity = "High" then 30 else 0) +
      (if r.ActionType = "Export" then 20 else 0) +
      (if r.IsOffHours = 1 then 20 else 0) ∧
  r.IsOffHours = is_off_hours r.HourOfDay ∧
  r.UserRole = roleOfUser r.UserID ∧
  r.Department = deptOf r.UserRole

set_option maxRecDepth 10000 in
theorem sampleRow_rowOk (i : Nat) (g : RNG) :
    RowOk (sampleRowOf roles i g).1 := by
  unfold RowOk sampleRowOf
  dsimp only
  exact ⟨compute_risk_score_eq _ _ _ _, rfl, rfl, rfl⟩

theorem genRowsOf_rowOk :
    ∀ (k i : Nat) (g : RNG), ∀ r ∈ (genRowsOf roles i k g).1, RowOk r := by
  intro k
  induction k with
  | zero => intro i g r hr; simp [genRowsOf] at hr
  | succ k ih =>
    intro i g r hr
    simp only [genRowsOf, List.mem_cons] at hr
    rcases hr with rfl | hr
    · exact sampleRow_rowOk i g
    · exact ih (i + 1) _ r hr

theorem inject_a_rowOk {df : List Row} {g : RNG}
    (h : ∀ r ∈ df, RowOk r) :
    ∀ r ∈ (inject_scenario_a df g).1, RowOk r := by
  intro r hr
  unfold inject_scenario_a at hr
  rcases List.mem_append.1 hr with hdf | hnew
  · exact h r hdf
  · simp only [List.mem_singleton] at hnew
    subst hnew
    have hrole : roleOfUser (choice admin_users g).1 = "Admin" :=
      mem_admin_users_role (choice_mem g admin_users_ne_nil)
    unfold RowOk
    dsimp only
    exact ⟨by decide, by decide, hrole.symm, by decide⟩

theorem inject_b_rowOk {df : List Row} {g : RNG}
    (h : ∀ r ∈ df, RowOk r) :
    ∀ r ∈ (inject_scenario_b df g).1, RowOk r := by
  intro r hr
  unfold inject_scenario_b at hr
  dsimp only at hr
  set u := (choice rec_users g).1 with hu
  set candidates :=
    (List.range df.length).filter (fun k => (df.getD k default).UserID == u)
    with hcand
  set idx := sampleOne candidates with hidx
  by_cases hlt : idx < df.length
  · have hold : df.getD idx default ∈ df := by
      rw [List.getD_eq_getElem df default hlt]
      exact List.getElem_mem hlt
    have hOk : RowOk (df.getD idx default) := h _ hold
    rcases List.mem_or_eq_of_mem_set hr with hmem | rfl
    · exact h r hmem
    · exact hOk
  · rw [List.set_eq_of_length_le (by omega)] at hr
    exact h r hr

theorem scenarioCRow_rowOk (u : String) (len : Nat) (g : RNG)
    (hu : u ∈ non_clin) : RowOk (scenarioCRow u len g).1 := by
  unfold RowOk scenarioCRow
  dsimp only
  refine ⟨compute_risk_score_eq _ _ _ _, rfl, rfl, ?_⟩
  rcases mem_non_clin_role hu with h | h <;> rw [h] <;> decide

theorem scenarioCLoop_rowOk (u : String) (hu : u ∈ non_clin) :
    ∀ (k : Nat) (df : List Row) (g : RNG), (∀ r ∈ df, RowOk r) →
      ∀ r ∈ (scenarioCLoop u k df g).1, RowOk r := by
  intro k
  induction k with
  | zero => intro df g h r hr; exact h r hr
  | succ k ih =>
    intro df g h r hr
    refine ih _ _ ?_ r hr
    intro r' hr'
    rcases List.mem_append.1 hr' with hmem | hnew
    · exact h r' hmem
    · simp only [List.mem_singleton] at hnew
      subst hnew
      exact scenarioCRow_rowOk u df.length _ hu

theorem inject_c_rowOk {df : List Row} {g : RNG} {n : Nat}
    (h : ∀ r ∈ df, RowOk r) :
    ∀ r ∈ (inject_scenario_c df g n).1, RowOk r := by
  unfold inject_scenario_c
  exact scenarioCLoop_rowOk _ (choice_mem g non_clin_ne_nil) n df _ h

theorem inject_d_rowOk {dfG df : List Row} {g : RNG}
    (h : ∀ r ∈ df, RowOk r) :
    ∀ r ∈ (inject_scenario_d dfG df g).1, RowOk r := by
  intro r hr
  unfold inject_scenario_d at hr
  rcases List.mem_append.1 hr with hdf | hnew
  · exact h r hdf
  · simp only [List.mem_singleton] at hnew
    subst hnew
    unfold RowOk
    dsimp only
    exact ⟨compute_risk_score_eq _ _ _ _, by decide, rfl, rfl⟩

theorem inject_e_rowOk {dfG df : List Row} {g : RNG}
    (h : ∀ r ∈ df, RowOk r) :
    ∀ r ∈ (inject_scenario_e dfG df g).1, RowOk r := by
  intro r hr
  unfold inject_scenario_e at hr
  rcases List.mem_append.1 hr with hdf | hnew
  · exact h r hdf
  · simp only [List.mem_singleton] at hnew
    subst hnew
    have hrole : roleOfUser (choice doc_users g).1 = "Doctor" :=
      mem_doc_users_role (choice_mem g doc_users_ne_nil)
    unfold RowOk
    dsimp only
    exact ⟨by decide, by decide, hrole.symm, by decide⟩

theorem applyScenario_rowOk {df : List Row} {g : RNG} (s : Scenario)
    (h : ∀ r ∈ df, RowOk r) :
    ∀ r ∈ (applyScenario df g s).1, RowOk r := by
  cases s with
  | A => exact inject_a_rowOk h
  | B => exact inject_b_rowOk h
  | C => exact inject_c_rowOk h
  | D => exact inject_d_rowOk h
  | E => exact inject_e_rowOk h

theorem runScenarios_rowOk :
    ∀ (scens : List Scenario) (df : List Row) (g : RNG),
      (∀ r ∈ df, RowOk r) → ∀ r ∈ (runScenarios scens df g).1, RowOk r := by
  intro scens
  induction scens with
  | nil => intro df g h r hr; exact h r hr
  | cons s rest ih =>
    intro df g h r hr
    exact ih _ _ (applyScenario_rowOk s h) r hr

/-- Every row of every run (any bulk count, any enabled scenario set,
any random stream) satisfies the row invariant. -/
theorem pipeline_rowOk (n : Nat) (scens : List Scenario) (g : RNG) :
    ∀ r ∈ pipeline n scens g, RowOk r := by
  intro r hr
  unfold pipeline at hr
  have hr' := List.mem_of_mem_take hr
  exact runScenarios_rowOk scens _ _ (fun r' h' => genRowsOf_rowOk n 0 g r' h') r hr'

/-! Lengths and identifiers. -/

theorem genRowsOf_length (rolesL : List String) :
    ∀ (k i : Nat) (g : RNG), (genRowsOf rolesL i k g).1.length = k := by
  intro k
  induction k with
  | zero => intro i g; rfl
  | succ k ih =>
    intro i g
    simp only [genRowsOf, List.length_cons]
    rw [ih]

theorem genRowsOf_map_id (rolesL : List String) :
    ∀ (k i : Nat) (g : RNG),
      ((genRowsOf rolesL i k g).1).map (fun r => r.AccessID) =
        (List.range' (i + 1) k).map (fun j => "A" ++ zfill (Nat.repr j) 5) := by
  intro k
  induction k with
  | zero => intro i g; rfl
  | succ k ih =>
    intro i g
    simp only [genRowsOf, List.map_cons, List.range'_succ]
    rw [ih]
    rfl

theorem string_cons_lt (c : Char) {l₁ l₂ : List Char} (h : l₁ < l₂) :
    (c :: l₁) < (c :: l₂) :=
  List.Lex.cons h

theorem accessID_lt {a b : Nat} (hab : a < b) (hb : b < 10 ^ 5) :
    ("A" ++ zfill (Nat.repr a) 5) < ("A" ++ zfill (Nat.repr b) 5) := by
  rw [String.lt_iff_toList_lt]
  simp only [String.toList]
  rw [String.data_append, String.data_append]
  have hA : "A".data = ['A'] := rfl
  rw [hA, List.singleton_append, List.singleton_append]
  exact string_cons_lt 'A' (zfill_repr_lt hab hb)

theorem prefixed_zfill_inj (p : String) {w a b : Nat}
    (h : p ++ zfill (Nat.repr a) w = p ++ zfill (Nat.repr b) w) : a = b := by
  apply zfill_repr_inj (w := w)
  apply String.ext
  have := congrArg String.data h
  rw [String.data_append, String.data_append] at this
  exact List.append_cancel_left this

/-! Roster facts. -/

theorem roles_length : roles.length = 300 := by
  rw [roles_def]
  simp only [List.length_append, List.length_replicate]

theorem users_nodup : users.Nodup := by
  unfold users usersOf
  refine List.Nodup.map_on ?_ (List.nodup_range _)
  intro x _ y _ h
  have := prefixed_zfill_inj "U" h
  omega

/-! Frame lemmas for the injectors. -/

theorem scenarioCLoop_append (u : String) :
    ∀ (k : Nat) (df : List Row) (g : RNG),
      ∃ new, (scenarioCLoop u k df g).1 = df ++ new := by
  intro k
  induction k with
  | zero => intro df g; exact ⟨[], (List.append_nil df).symm⟩
  | succ k ih =>
    intro df g
    obtain ⟨new, hnew⟩ := ih (df ++ [(scenarioCRow u df.length g).1])
      (scenarioCRow u df.length g).2
    exact ⟨(scenarioCRow u df.length g).1 :: new, by
      simp only [scenarioCLoop]
      rw [hnew, List.append_assoc]
      rfl⟩

/-- Equality of every field except `AccessCountPerDay`. -/
def SameButCount (r r' : Row) : Prop :=
  r.AccessID = r'.AccessID ∧ r.UserID = r'.UserID ∧
  r.UserRole = r'.UserRole ∧ r.Department = r'.Department ∧
  r.Timestamp = r'.Timestamp ∧ r.DayOfWeek = r'.DayOfWeek ∧
  r.HourOfDay = r'.HourOfDay ∧ r.PatientID = r'.PatientID ∧
  r.ActionType = r'.ActionType ∧ r.DataSensitivity = r'.DataSensitivity ∧
  r.AccessLocation = r'.AccessLocation ∧ r.IsOffHours = r'.IsOffHours ∧
  r.IsWeekend = r'.IsWeekend ∧ r.RoleRiskWeight = r'.RoleRiskWeight ∧
  r.AccessRiskScore = r'.AccessRiskScore

theorem sameButCount_refl (r : Row) : SameButCount r r :=
  ⟨rfl, rfl, rfl, rfl, rfl, rfl, rfl, rfl, rfl, rfl, rfl, rfl, rfl, rfl, rfl⟩

theorem set_sameButCount (df : List Row) (i : Nat) (v : Row)
    (hv : SameButCount v (df.getD i default)) :
    ∀ k, k < df.length →
      SameButCount ((df.set i v).getD k default) (df.getD k default) := by
  intro k hk
  have hklen : k < (df.set i v).length := by
    rw [List.length_set]; exact hk
  by_cases hke : k = i
  · subst hke
    rw [List.getD_eq_getElem _ default hklen, List.getElem_set_self]
    exact hv
  · rw [List.getD_eq_getElem _ default hklen,
      List.getElem_set_ne (fun h => hke h.symm),
      List.getD_eq_getElem df default hk]
    exact sameButCount_refl _

theorem inject_b_frame (df : List Row) (g : RNG) :
    (inject_scenario_b df g).1.length = df.length ∧
    ∀ k, k < df.length →
      SameButCount ((inject_scenario_b df g).1.getD k default)
        (df.getD k default) := by
  unfold inject_scenario_b
  dsimp only
  constructor
  · exact List.length_set df _ _
  · apply set_sameButCount
    exact ⟨rfl, rfl, rfl, rfl, rfl, rfl, rfl, rfl, rfl, rfl, rfl, rfl, rfl,
      rfl, rfl⟩

/-- On a one-row table whose row belongs to the receptionist that
scenario B draws, the candidate set is the singleton `[0]` — where the
pandas sample is forced — and the run rewrites that row's
`AccessCountPerDay` to 500 in place. -/
theorem inject_b_singleton (r : Row) (g : RNG)
    (h : r.UserID = (choice rec_users g).1) :
    (inject_scenario_b [r] g).1 = [{ r with AccessCountPerDay := 500 }] := by
  unfold inject_scenario_b
  dsimp only
  have hpred : (([r].getD 0 default).UserID == (choice rec_users g).1)
      = true := by
    simp [h]
  have hcand :
      List.filter
        (fun k => (([r].getD k default).UserID == (choice rec_users g).1))
        (List.range [r].length) = [0] := by
    simp only [List.length_singleton]
    rw [show List.range 1 = [0] from rfl, List.filter_cons, if_pos hpred]
    rfl
  rw [hcand]
  rfl

/-- A previously created access-event row for an actor `u`; the
counterexample instantiates `u` with whichever receptionist scenario B
draws. -/
def rowCexFor (u : String) : Row :=
  { AccessID := "A00001"
    UserID := u
    UserRole := "Receptionist"
    Department := "Admin"
    Timestamp := 0
    DayOfWeek := "Sunday"
    HourOfDay := 0
    PatientID := "P100"
    ActionType := "View"
    DataSensitivity := "Normal"
    AccessLocation := "Onsite"
    AccessCountPerDay := 10
    IsOffHours := 1
    IsWeekend := 1
    RoleRiskWeight := 4
    AccessRiskScore := 60 }

theorem compute_risk_score_export_high (role : String) :
    compute_risk_score role "Export" "High" 0 =
      weightOf role * 10 + 30 + 20 := by
  rw [compute_risk_score_eq]
  simp

/-! The claims. -/

/-- C1: for every generated row — bulk-sampled or scenario-injected,
under any bulk count, any enabled scenario set and any random stream —
the risk score equals `role_weight[role]*10`, plus 30 for high
sensitivity, plus 20 for an export action, plus 20 for the off-hours
flag; and the scoring function is a pure function of exactly those four
inputs, given by that formula. -/
theorem C1_risk_score_formula :
    (∀ (role action sensitivity : String) (f : Nat),
        compute_risk_score role action sensitivity f =
          weightOf role * 10 +
          (if sensitivity = "High" then 30 else 0) +
          (if action = "Export" then 20 else 0) +
          (if f = 1 then 20 else 0)) ∧
    (∀ (n : Nat) (scens : List Scenario) (g : RNG),
        ∀ r ∈ pipeline n scens g,
          r.AccessRiskScore =
            weightOf r.UserRole * 10 +
            (if r.DataSensitivity = "High" then 30 else 0) +
            (if r.ActionType = "Export" then 20 else 0) +
            (if r.IsOffHours = 1 then 20 else 0)) :=
  ⟨compute_risk_score_eq,
   fun n scens g r hr => (pipeline_rowOk n scens g r hr).1⟩

set_option maxRecDepth 10000 in
theorem C1_risk_score_formula_witness :
    ((pipeline 1 [] (mkRNG 42)).headD default).AccessRiskScore =
      weightOf ((pipeline 1 [] (mkRNG 42)).headD default).UserRole * 10 +
      (if ((pipeline 1 [] (mkRNG 42)).headD default).DataSensitivity = "High"
        then 30 else 0) +
      (if ((pipeline 1 [] (mkRNG 42)).headD default).ActionType = "Export"
        then 20 else 0) +
      (if ((pipeline 1 [] (mkRNG 42)).headD default).IsOffHours = 1
        then 20 else 0) :=
  C1_risk_score_formula.2 1 [] (mkRNG 42) _ (by decide)

/-- C2: for every generated row of every run, the off-hours flag is 1
iff the hour-of-day is strictly below 8 or strictly above 18; in
particular an hour-18 row has flag 0. -/
theorem C2_off_hours_boundary :
    ∀ (n : Nat) (scens : List Scenario) (g : RNG),
      ∀ r ∈ pipeline n scens g,
        (r.IsOffHours = 1 ↔ (r.HourOfDay < 8 ∨ 18 < r.HourOfDay)) ∧
        (r.HourOfDay = 18 → r.IsOffHours = 0) := by
  intro n scens g r hr
  have h := (pipeline_rowOk n scens g r hr).2.1
  constructor
  · rw [h]; exact is_off_hours_iff _
  · intro h18; rw [h, h18]; decide

set_option maxRecDepth 10000 in
theorem C2_off_hours_boundary_witness :
    (((pipeline 1 [] (mkRNG 42)).headD default).IsOffHours = 1 ↔
      (((pipeline 1 [] (mkRNG 42)).headD default).HourOfDay < 8 ∨
        18 < ((pipeline 1 [] (mkRNG 42)).headD default).HourOfDay)) ∧
    (((pipeline 1 [] (mkRNG 42)).headD default).HourOfDay = 18 →
      ((pipeline 1 [] (mkRNG 42)).headD default).IsOffHours = 0) :=
  C2_off_hours_boundary 1 [] (mkRNG 42) _ (by decide)

/-- C3: the code belies the claimed row count.  Line 269
(`df = df.head(NUM_ROWS)`) truncates the frame after the scenario
blocks have appended their rows, so the serialized output never exceeds
the bulk count; with scenario A enabled (which appends one row) the
output holds exactly `NUM_ROWS` rows, not `NUM_ROWS + 1` as claimed. -/
theorem C3_head_truncates_scenario_rows :
    (∀ (n : Nat) (scens : List Scenario) (g : RNG),
        (pipeline n scens g).length ≤ n) ∧
    (∀ (n : Nat) (g : RNG), (pipeline n [Scenario.A] g).length = n) := by
  constructor
  · intro n scens g
    unfold pipeline
    dsimp only
    rw [List.length_take]
    exact min_le_left _ _
  · intro n g
    unfold pipeline
    dsimp only
    rw [List.length_take]
    have h2 : (runScenarios [Scenario.A] (genRows n g).1 (genRows n g).2).1.length
        = n + 1 := by
      show (inject_scenario_a (genRows n g).1 (genRows n g).2).1.length = n + 1
      unfold inject_scenario_a
      dsimp only
      rw [List.length_append]
      unfold genRows
      rw [genRowsOf_length]
      rfl
    rw [h2]
    omega

theorem rowCexFor_userID (u : String) : (rowCexFor u).UserID = u := rfl

/-- C4 is refuted: scenario B does not append; it rewrites the
`AccessCountPerDay` cell of a previously created row in place.  On a
table holding one row owned by the receptionist that the injector
draws, the row's counter changes from 10 to 500. -/
theorem C4_counterexample :
    ((inject_scenario_b [rowCexFor ((choice rec_users (mkRNG 0)).1)]
        (mkRNG 0)).1.getD 0 default).AccessCountPerDay = 500 ∧
    (rowCexFor ((choice rec_users (mkRNG 0)).1)).AccessCountPerDay = 10 := by
  have h := inject_b_singleton (rowCexFor ((choice rec_users (mkRNG 0)).1))
    (mkRNG 0) (rowCexFor_userID _)
  rw [h]
  exact ⟨rfl, rfl⟩

/-- C4 (amended): scenarios A, C, D and E only append — each leaves its
input table as a prefix and every previously created row untouched —
while scenario B keeps the table length and every field of every row
except the `AccessCountPerDay` cell it rewrites. -/
theorem C4_injector_frame :
    (∀ (df : List Row) (g : RNG),
        ∃ new, (inject_scenario_a df g).1 = df ++ new) ∧
    (∀ (df : List Row) (g : RNG) (n : Nat),
        ∃ new, (inject_scenario_c df g n).1 = df ++ new) ∧
    (∀ (dfG df : List Row) (g : RNG),
        ∃ new, (inject_scenario_d dfG df g).1 = df ++ new) ∧
    (∀ (dfG df : List Row) (g : RNG),
        ∃ new, (inject_scenario_e dfG df g).1 = df ++ new) ∧
    (∀ (df : List Row) (g : RNG),
        (inject_scenario_b df g).1.length = df.length ∧
        ∀ k, k < df.length →
          SameButCount ((inject_scenario_b df g).1.getD k default)
            (df.getD k default)) := by
  refine ⟨?_, ?_, ?_, ?_, inject_b_frame⟩
  · intro df g; exact ⟨_, rfl⟩
  · intro df g n
    unfold inject_scenario_c
    exact scenarioCLoop_append _ n df _
  · intro dfG df g; exact ⟨_, rfl⟩
  · intro dfG df g; exact ⟨_, rfl⟩

/-- An invalid configuration for §7 of the spec: a negative role
count. -/
def bad_role_counts : List (String × Int) :=
  [("Doctor", -1), ("Nurse", 166), ("Admin", 15),
   ("Receptionist", 21), ("Pharmacist", 12)]

/-- C5 is refuted: the script performs no configuration validation at
all.  With an invalid role-count table (a negative count for Doctor),
the run does not abort before generation: it builds the shrunken
roster, generates every requested row and writes them out — here two
rows of output from the invalid configuration. -/
theorem C5_counterexample :
    (pipelineOf (buildRoles bad_role_counts) 2 (mkRNG 42)).length = 2 ∧
    pipelineOf (buildRoles bad_role_counts) 2 (mkRNG 42) ≠ [] := by
  have hlen : (pipelineOf (buildRoles bad_role_counts) 2 (mkRNG 42)).length
      = 2 := by
    unfold pipelineOf
    rw [List.length_take, genRowsOf_length]
    omega
  exact ⟨hlen, by intro hnil; rw [hnil] at hlen; simp at hlen⟩

/-- C5 (amended): the code never checks its configuration.  An invalid
role-count table is silently accepted — Python list repetition by a
negative count contributes nothing, so the roster shrinks from 300 to
214 — and generation then proceeds normally: for every requested bulk
count and every stream the run produces and writes exactly that many
rows instead of aborting. -/
theorem C5_no_validation :
    (buildRoles bad_role_counts).length = 214 ∧
    ∀ (n : Nat) (g : RNG),
      (pipelineOf (buildRoles bad_role_counts) n g).length = n := by
  constructor
  · rfl
  · intro n g
    unfold pipelineOf
    rw [List.length_take, genRowsOf_length]
    omega

/-- C6: a run is a deterministic function of the seed and the
configuration (bulk count and enabled scenario set): equal seeds and
equal configurations give equal row sequences, hence byte-identical
serialized output. -/
theorem C6_determinism :
    ∀ (numRows : Nat) (scens : List Scenario) (seed₁ seed₂ : Nat),
      seed₁ = seed₂ →
      pipeline numRows scens (mkRNG seed₁) =
        pipeline numRows scens (mkRNG seed₂) := by
  intro n scens s₁ s₂ h
  rw [h]

theorem C6_determinism_witness :
    pipeline 1 [] (mkRNG 42) = pipeline 1 [] (mkRNG 42) :=
  C6_determinism 1 [] 42 42 rfl

/-- C7: the roster holds exactly 86+166+15+21+12 = 300 identities, the
sequentially assigned strings `U001..U300`, which are pairwise
distinct (so each maps to exactly one role), and every row of every
run carries the role the roster assigns to its actor and the department
the role→department table assigns to that role. -/
theorem C7_roster_consistency :
    users.length = 86 + 166 + 15 + 21 + 12 ∧
    users = (List.range 300).map (fun i => "U" ++ zfill (Nat.repr (i + 1)) 3) ∧
    users.Nodup ∧
    (∀ (n : Nat) (scens : List Scenario) (g : RNG),
        ∀ r ∈ pipeline n scens g,
          r.UserRole = roleOfUser r.UserID ∧
          r.Department = deptOf r.UserRole) := by
  refine ⟨?_, ?_, users_nodup, ?_⟩
  · show (usersOf roles).length = 300
    unfold usersOf
    rw [List.length_map, List.length_range, roles_length]
  · show usersOf roles = _
    unfold usersOf
    rw [roles_length]
  · intro n scens g r hr
    exact ⟨(pipeline_rowOk n scens g r hr).2.2.1,
      (pipeline_rowOk n scens g r hr).2.2.2⟩

set_option maxRecDepth 10000 in
theorem C7_roster_consistency_witness :
    ((pipeline 1 [] (mkRNG 42)).headD default).UserRole =
      roleOfUser ((pipeline 1 [] (mkRNG 42)).headD default).UserID ∧
    ((pipeline 1 [] (mkRNG 42)).headD default).Department =
      deptOf ((pipeline 1 [] (mkRNG 42)).headD default).UserRole :=
  C7_roster_consistency.2.2.2 1 [] (mkRNG 42) _ (by decide)

set_option maxRecDepth 10000 in
/-- C8: the row appended by the Sunday-afternoon-export scenario has
hour 15, weekend flag 1, off-hours flag 0, and its score comes from the
shared scorer at (actor's role, Export, High, off-hours 0), which
equals `role_weight[role]*10 + 30 + 20` for every possible actor. -/
theorem C8_sunday_export_row :
    ∀ (dfG df : List Row) (g : RNG), ∃ r : Row,
      (inject_scenario_d dfG df g).1 = df ++ [r] ∧
      r.HourOfDay = 15 ∧ r.IsWeekend = 1 ∧ r.IsOffHours = 0 ∧
      r.AccessRiskScore = compute_risk_score r.UserRole "Export" "High" 0 ∧
      r.AccessRiskScore = weightOf r.UserRole * 10 + 30 + 20 := by
  intro dfG df g
  refine ⟨_, rfl, rfl, rfl, rfl, rfl, compute_risk_score_export_high _⟩

/-- C9: over the documented input domain — a role present in the
weight table, an action among view/edit/export, a sensitivity among
normal/high, an off-hours flag in {0, 1} — the risk score lies between
20 (Doctor, no add-ons) and 120 (Admin, all add-ons) inclusive. -/
theorem C9_score_bounds :
    ∀ (role action sensitivity : String) (f : Nat),
      (∃ w, (role, w) ∈ role_risk_weight) → action ∈ actions →
      sensitivity ∈ sensitivities → (f = 0 ∨ f = 1) →
      20 ≤ compute_risk_score role action sensitivity f ∧
      compute_risk_score role action sensitivity f ≤ 120 := by
  intro role action sens f hrole ha hs hf
  obtain ⟨w, hw⟩ := hrole
  simp only [role_risk_weight, List.mem_cons, List.not_mem_nil, or_false,
    Prod.mk.injEq] at hw
  simp only [actions, List.mem_cons, List.not_mem_nil, or_false] at ha
  simp only [sensitivities, List.mem_cons, List.not_mem_nil, or_false] at hs
  rcases hw with ⟨rfl, rfl⟩ | ⟨rfl, rfl⟩ | ⟨rfl, rfl⟩ | ⟨rfl, rfl⟩ | ⟨rfl, rfl⟩ <;>
    rcases ha with rfl | rfl | rfl <;>
    rcases hs with rfl | rfl <;>
    rcases hf with rfl | rfl <;> decide

theorem C9_score_bounds_witness :
    20 ≤ compute_risk_score "Admin" "Export" "High" 1 ∧
    compute_risk_score "Admin" "Export" "High" 1 ≤ 120 :=
  C9_score_bounds "Admin" "Export" "High" 1 ⟨5, by decide⟩ (by decide)
    (by decide) (Or.inr rfl)

/-- C10: the bulk rows' event ids are exactly `"A"` followed by the
1-based row index zero-padded to five digits, in order; and (for any
bulk count up to 99999, far beyond the configured 5000) they are
strictly increasing as strings, hence pairwise distinct. -/
theorem C10_access_ids :
    ∀ (n : Nat) (g : RNG), n ≤ 99999 →
      ((genRows n g).1.map (fun r => r.AccessID) =
        (List.range' 1 n).map (fun j => "A" ++ zfill (Nat.repr j) 5)) ∧
      ((genRows n g).1.map (fun r => r.AccessID)).Pairwise (· < ·) ∧
      ((genRows n g).1.map (fun r => r.AccessID)).Nodup := by
  intro n g hn
  have hmap : (genRows n g).1.map (fun r => r.AccessID) =
      (List.range' 1 n).map (fun j => "A" ++ zfill (Nat.repr j) 5) := by
    unfold genRows
    have := genRowsOf_map_id roles n 0 g
    rwa [zero_add] at this
  have hb : ∀ b ∈ List.range' 1 n, b < 10 ^ 5 := by
    intro b hbm
    rcases List.mem_range'.1 hbm with ⟨i, hi, rfl⟩
    have : (10 : Nat) ^ 5 = 100000 := by norm_num
    omega
  refine ⟨hmap, ?_, ?_⟩
  · rw [hmap, List.pairwise_map]
    refine (List.pairwise_lt_range' 1 n).imp_of_mem ?_
    intro a b _ hbm hab
    exact accessID_lt hab (hb b hbm)
  · rw [hmap]
    refine List.Nodup.map_on ?_ (List.nodup_range' 1 n)
    intro x _ y _ h
    exact prefixed_zfill_inj "A" h

theorem C10_access_ids_witness :
    ((genRows 2 (mkRNG 42)).1.map (fun r => r.AccessID) =
      (List.range' 1 2).map (fun j => "A" ++ zfill (Nat.repr j) 5)) ∧
    ((genRows 2 (mkRNG 42)).1.map (fun r => r.AccessID)).Pairwise (· < ·) ∧
    ((genRows 2 (mkRNG 42)).1.map (fun r => r.AccessID)).Nodup :=
  C10_access_ids 2 (mkRNG 42) (by decide)
